import Mathlib

/-!
Shallow embedding of the data-normalization and caching pipeline of
`streamlit_app.py` (a single-file Streamlit dashboard fetching price history
and annual statements for one ticker via a market-data provider).

Python scalar cell values are modelled by `PyVal`; pandas DataFrames are
modelled either column-major (`DF`, for `format_commas`, which operates on
whole columns) or as a statement table `SDF` (period columns × line-item
rows, for `latest_col`).  Python floats are modelled by `ℚ`; provider calls
that may raise are modelled with `Except Unit`.
-/

/-- A Python scalar value as it appears in a table cell: `None`, a number
(int/float, modelled exactly by `ℚ`), a boolean, or a string. -/
inductive PyVal where
  | none
  | num (q : ℚ)
  | bool (b : Bool)
  | str (s : String)
deriving DecidableEq, Repr

/-- `pd.isna` on a scalar: true exactly for missing values (`None`/`NaN`,
both modelled by `PyVal.none`). -/
def pdIsna : PyVal → Bool
  | .none => true
  | _ => false

/-- Decimal value of a list of digit characters (most significant first). -/
def digitsVal (l : List Char) : Nat :=
  l.foldl (fun n c => 10 * n + (c.toNat - 48)) 0

/-- Python `float(s)` on a string, restricted to plain decimal literals
(optional surrounding whitespace, optional sign, digits with an optional
fractional part).  Returns `none` when Python's `float()` raises
`ValueError` (e.g. on a currency code such as `"USD"`). -/
def strFloat? (s : String) : Option ℚ :=
  let t := ((s.data.dropWhile Char.isWhitespace).reverse.dropWhile Char.isWhitespace).reverse
  let su : ℤ × List Char :=
    match t with
    | '-' :: rest => (-1, rest)
    | '+' :: rest => (1, rest)
    | l => (1, l)
  let i := su.2.takeWhile (fun c => c ≠ '.')
  match su.2.dropWhile (fun c => c ≠ '.') with
  | [] =>
    if !i.isEmpty && i.all Char.isDigit then
      Option.some (mkRat (su.1 * Int.ofNat (digitsVal i)) 1)
    else Option.none
  | _ :: f =>
    if (!i.isEmpty || !f.isEmpty) && i.all Char.isDigit && f.all Char.isDigit then
      Option.some
        (mkRat (su.1 * Int.ofNat (digitsVal i * 10 ^ f.length + digitsVal f)) (10 ^ f.length))
    else Option.none

/-- Python `float(x)` on a `PyVal`: numbers pass through, booleans coerce to
`1`/`0`, strings go through `strFloat?`, and `float(None)` raises
(modelled as `none`). -/
def pyFloat? : PyVal → Option ℚ
  | .none => Option.none
  | .num q => Option.some q
  | .bool b => Option.some (if b then mkRat 1 1 else mkRat 0 1)
  | .str s => strFloat? s

/-- Round a rational to the nearest integer, ties to even — the rounding
used by Python's fixed-point format specifier (`f"{x:,.0f}"`). -/
def roundHalfEven (q : ℚ) : ℤ :=
  let f := q.floor
  let t := 2 * (q.num - f * (Int.ofNat q.den))
  if t < Int.ofNat q.den then f
  else if Int.ofNat q.den < t then f + 1
  else if f % 2 = 0 then f else f + 1

/-- Insert a comma after every group of three characters, walking a
reversed digit list (helper for thousands grouping). -/
def commaGroupAux : List Char → List Char
  | a :: b :: c :: d :: rest => a :: b :: c :: ',' :: commaGroupAux (d :: rest)
  | l => l

/-- Group the digits of a decimal numeral string in threes with commas,
from the right: `"1234567"` becomes `"1,234,567"`. -/
def commaGroup (s : String) : String :=
  String.mk (commaGroupAux s.data.reverse).reverse

/-- Python `f"{float(x):,.0f}"` on an exact rational: round to zero decimal
places (ties to even) and render with thousands separators.  (Python prints
`"-0"` for values rounding to negative zero; the exact-rational model
renders those as `"0"`; no integer-valued input is affected.) -/
def commaFmt (q : ℚ) : String :=
  let n := roundHalfEven q
  let s := commaGroup (toString n.natAbs)
  if n < 0 then "-" ++ s else s

/-- The per-cell formatter `fmt` nested in `format_commas`: missing values
render as `""`, values coercible to `float` render via `commaFmt`, and a
value on which `float()` raises is returned unchanged. -/
def fmt (x : PyVal) : PyVal :=
  if pdIsna x then .str ""
  else
    match pyFloat? x with
    | Option.some q => .str (commaFmt q)
    | Option.none => x

/-- A pandas DataFrame in column-major form: an ordered list of
(column name, column data) pairs.  Well-formed frames have all columns of
equal length. -/
abbrev DF : Type := List (String × List PyVal)

/-- `df.empty` for a column-major frame: true when there are no columns or
no rows (pandas: any axis of length zero). -/
def dfEmpty (df : DF) : Bool :=
  match df with
  | [] => true
  | c :: _ => c.2.isEmpty

/-- `format_commas(df)`: `None` and empty frames are returned as given;
otherwise the frame is copied and every column named `"Value"` has `fmt`
applied elementwise (the `"Value" in out.columns` guard is subsumed: only
`"Value"` columns are touched). -/
def format_commas (odf : Option DF) : Option DF :=
  match odf with
  | Option.none => Option.none
  | Option.some df =>
    if dfEmpty df then Option.some df
    else Option.some (df.map (fun c => if c.1 = "Value" then (c.1, c.2.map fmt) else c))

/-- Heap model of `format_commas` for the aliasing/mutation claim: a store
is a list of frames, a DataFrame argument is an index into it.  An empty or
`None`-like frame is returned as the same reference; otherwise `out =
df.copy()` allocates a fresh cell at the end of the store and the `"Value"`
column is rewritten only in that fresh cell. -/
def format_commas_prog (st : List DF) (r : Nat) : List DF × Nat :=
  let df := st.getD r []
  if dfEmpty df then (st, r)
  else
    let out := df.map (fun c => if c.1 = "Value" then (c.1, c.2.map fmt) else c)
    (st ++ [out], st.length)

/-! ### Statement tables, `latest_col`, and period labels -/

/-- A provider statement table as returned by yfinance: columns are
reporting periods (identified here by their string form, since
`pretty_period` immediately applies `str(col)`), rows are line items with
one value per period column. -/
structure SDF where
  cols : List String
  rows : List (String × List PyVal)
deriving DecidableEq, Repr

/-- `df.empty` for a statement table: true when either axis has length
zero. -/
def sdfEmpty (df : SDF) : Bool :=
  df.rows.isEmpty || df.cols.isEmpty

/-- `latest_col(df)`: for `None` or empty tables return `(None, None)`;
otherwise take the first (most recent) period column and reshape it into a
two-column `Item | Value` table, one `(line-item name, value)` pair per
input row, in input order.  Returned alongside the selected column's
identifier. -/
def latest_col (odf : Option SDF) : Option (List (String × PyVal)) × Option String :=
  match odf with
  | Option.none => (Option.none, Option.none)
  | Option.some df =>
    if sdfEmpty df then (Option.none, Option.none)
    else
      (Option.some (df.rows.map (fun r => (r.1, r.2.headD PyVal.none))),
       Option.some (df.cols.headD ""))

/-- Number of days in a month of the proleptic Gregorian calendar, as
validated by `pd.to_datetime`. -/
def daysInMonth (y m : Nat) : Nat :=
  if m = 2 then
    if y % 4 = 0 && (y % 100 ≠ 0 || y % 400 = 0) then 29 else 28
  else if m = 4 || m = 6 || m = 9 || m = 11 then 30
  else 31

/-- All-digit check plus decimal value for one dash-separated date field. -/
def dateField? (l : List Char) : Option Nat :=
  if !l.isEmpty && l.all Char.isDigit then Option.some (digitsVal l) else Option.none

/-- Split a character list on a separator character. -/
def splitOnChar (sep : Char) : List Char → List (List Char)
  | [] => [[]]
  | c :: rest =>
    let r := splitOnChar sep rest
    if c = sep then [] :: r
    else
      match r with
      | [] => [[c]]
      | g :: gs => (c :: g) :: gs

/-- `pd.to_datetime(s)` restricted to dash-separated calendar dates with a
four-digit year (`YYYY-M-D`, month and day of one or two digits, validated
against the calendar).  Returns the parsed `(year, month, day)`, or `none`
when pandas would raise and `pretty_period` falls back to the raw string. -/
def parseDate (s : String) : Option (Nat × Nat × Nat) :=
  match splitOnChar '-' s.data with
  | [ys, ms, ds] =>
    match dateField? ys, dateField? ms, dateField? ds with
    | Option.some y, Option.some m, Option.some d =>
      if ys.length = 4 ∧ ms.length ≤ 2 ∧ ds.length ≤ 2 ∧ 1 ≤ m ∧ m ≤ 12
          ∧ 1 ≤ d ∧ d ≤ daysInMonth y m then
        Option.some (y, m, d)
      else Option.none
    | _, _, _ => Option.none
  | _ => Option.none

/-- Left-pad the decimal numeral of `n` with zeros to width `w`
(`strftime` zero padding). -/
def padNum (w n : Nat) : String :=
  let s := toString n
  String.mk (List.replicate (w - s.length) '0') ++ s

/-- `strftime("%Y-%m-%d")` on a parsed date. -/
def formatISO (d : Nat × Nat × Nat) : String :=
  padNum 4 d.1 ++ "-" ++ padNum 2 d.2.1 ++ "-" ++ padNum 2 d.2.2

/-- `pretty_period(col)`: `None` becomes `"N/A"`; otherwise try to parse
the identifier's string form as a date and render it `YYYY-MM-DD`, falling
back to the raw string when parsing raises. -/
def pretty_period (col : Option String) : String :=
  match col with
  | Option.none => "N/A"
  | Option.some s =>
    match parseDate s with
    | Option.some d => formatISO d
    | Option.none => s

example : pretty_period Option.none = "N/A" := by decide
example : pretty_period (Option.some "2023-12-31") = "2023-12-31" := by decide
example : pretty_period (Option.some "2023-1-5") = "2023-01-05" := by decide
example : pretty_period (Option.some "hello") = "hello" := by decide
example : pretty_period (Option.some "2023-02-30") = "2023-02-30" := by decide
example : pretty_period (Option.some "2024-02-29") = "2024-02-29" := by decide
example : pretty_period (Option.some "2023-13-01") = "2023-13-01" := by decide
example :
    latest_col (Option.some ⟨["2023-12-31", "2022-12-31"],
      [("Revenue", [.num 1000000, .num 900000]), ("Costs", [.num 1, .num 2])]⟩)
      = (Option.some [("Revenue", .num 1000000), ("Costs", .num 1)],
         Option.some "2023-12-31") := by decide
example : latest_col (Option.some ⟨["2023-12-31"], []⟩) = (Option.none, Option.none) := by
  decide
example : latest_col Option.none = (Option.none, Option.none) := by decide

/-! ### Provider, `load_data`, and the cache -/

/-- One row of the provider's OHLCV price-history table. -/
structure PriceRow where
  Open : ℚ
  High : ℚ
  Low : ℚ
  Close : ℚ
  Volume : ℚ
deriving DecidableEq, Repr

/-- The market-data provider behind `yf.Ticker(tkr)`.  Each sub-call either
returns data or raises (`Except.error`): `get_info` yields the optional
`longName`/`shortName` fields (a `None`/empty info dict is folded into
`(none, none)`, matching `t.get_info() or {}`), `history` yields dated
OHLCV rows, and each statement accessor yields its table or `None`. -/
structure Provider where
  get_info : Except Unit (Option String × Option String)
  history : Except Unit (List (Nat × PriceRow))
  income_stmt : Except Unit (Option SDF)
  balance_sheet : Except Unit (Option SDF)
  cashflow : Except Unit (Option SDF)

/-- Python truthiness of an optional string: `None` and `""` are falsy. -/
def truthyStr : Option String → Bool
  | Option.none => false
  | Option.some s => !s.isEmpty

/-- Python `a or b` on optional strings: `b` whenever `a` is falsy. -/
def pyOr (a b : Option String) : Option String :=
  if truthyStr a then a else b

/-- The normalized result dict returned by `load_data`, field for field
(`hist` reduced to its retained date/Close pairs). -/
structure FetchResult where
  name : Option String
  hist : List (Nat × ℚ)
  inc : Option (List (String × PyVal))
  inc_period : String
  bal : Option (List (String × PyVal))
  bal_period : String
  cf : Option (List (String × PyVal))
  cf_period : String
deriving DecidableEq, Repr

/-- `load_data(tkr)` over an abstract provider: the metadata lookup is
wrapped in `try/except` (any failure degrades to `name = None`; otherwise
`longName or shortName`); the price-history call and the three statement
accesses are not wrapped, so a raise there propagates (`Except.error`).  A
non-empty history is reduced to its `Close` column; each statement goes
through `latest_col` and `pretty_period`. -/
def load_data (p : Provider) : Except Unit FetchResult :=
  let name : Option String :=
    match p.get_info with
    | .ok info => pyOr info.1 info.2
    | .error _ => Option.none
  match p.history with
  | .error e => .error e
  | .ok hist =>
    match p.income_stmt, p.balance_sheet, p.cashflow with
    | .error e, _, _ => .error e
    | _, .error e, _ => .error e
    | _, _, .error e => .error e
    | .ok income_a, .ok balance_a, .ok cashflow_a =>
      let histClose : List (Nat × ℚ) :=
        if hist.isEmpty then [] else hist.map (fun r => (r.1, r.2.Close))
      let il := latest_col income_a
      let bl := latest_col balance_a
      let cl := latest_col cashflow_a
      .ok {
        name := name
        hist := histClose
        inc := il.1
        inc_period := pretty_period il.2
        bal := bl.1
        bal_period := pretty_period bl.2
        cf := cl.1
        cf_period := pretty_period cl.2
      }

/-- Modelled from the spec: the cache's time-to-live, one hour
(`@st.cache_data(ttl=3600)`; the cache implementation itself is Streamlit
library code, not part of this repository). -/
def TTL : Nat := 3600

/-- Modelled from the spec: one cache entry, a stored result with the
timestamp at which the pipeline computed it. -/
structure CacheEntry where
  result : FetchResult
  computed_at : Nat
deriving DecidableEq, Repr

/-- Modelled from the spec: the cache state, a mapping from ticker string
to its entry (newest binding first). -/
abbrev CacheState : Type := List (String × CacheEntry)

/-- Modelled from the spec: `get_or_fetch(ticker)`.  If an entry exists for
the ticker and `now - computed_at < TTL`, return the stored result without
invoking the pipeline; otherwise invoke the pipeline once, store its result
keyed by the ticker with the current timestamp, and return it.  The third
component counts pipeline invocations performed by the call. -/
def get_or_fetch (pipeline : String → FetchResult) (now : Nat) (s : CacheState)
    (tkr : String) : FetchResult × CacheState × Nat :=
  match s.lookup tkr with
  | Option.some e =>
    if now - e.computed_at < TTL then (e.result, s, 0)
    else
      let r := pipeline tkr
      (r, (tkr, ⟨r, now⟩) :: s, 1)
  | Option.none =>
    let r := pipeline tkr
    (r, (tkr, ⟨r, now⟩) :: s, 1)

example : fmt (.num 1234567) = .str "1,234,567" := by decide
example : fmt .none = .str "" := by decide
example : fmt (.str "USD") = .str "USD" := by decide
example : fmt (.str "1234") = .str "1,234" := by decide
example : fmt (.bool true) = .str "1" := by decide
example : fmt (.num (-1234567)) = .str "-1,234,567" := by decide
example : fmt (.num (mkRat 25 10)) = .str "2" := by decide
example : fmt (.num (mkRat 35 10)) = .str "4" := by decide
example : fmt (.str "12.5") = .str "12" := by decide
example : fmt (.str "-3.21") = .str "-3" := by decide
example : fmt (.str " 1234 ") = .str "1,234" := by decide
example : fmt (.str "1.2.3") = .str "1.2.3" := by decide
example : fmt (.str "") = .str "" := by decide
example : fmt (.bool false) = .str "0" := by decide

/-! ### Claim theorems -/

/-- C3: for a non-empty statement table, `latest_col` produces exactly the
(line-item name, first-column value) pairs: one output row per input row,
in input order, every value taken from the first (most recent) period
column. -/
theorem latest_col_first_column (df : SDF) (hr : df.rows ≠ []) (hc : df.cols ≠ []) :
    (latest_col (Option.some df)).1
        = Option.some (df.rows.map (fun r => (r.1, r.2.headD PyVal.none)))
      ∧ (df.rows.map (fun r => (r.1, r.2.headD PyVal.none))).length = df.rows.length := by
  have h : sdfEmpty df = false := by
    simp [sdfEmpty, List.isEmpty_iff, hr, hc]
  simp [latest_col, h]

/-- Concrete instantiation of `latest_col_first_column` for a one-row
income statement. -/
theorem latest_col_first_column_witness :
    (⟨["2023-12-31"], [("Revenue", [PyVal.num 1000000])]⟩ : SDF).rows ≠ []
      ∧ ((latest_col (Option.some ⟨["2023-12-31"], [("Revenue", [PyVal.num 1000000])]⟩)).1
            = Option.some ((⟨["2023-12-31"], [("Revenue", [PyVal.num 1000000])]⟩ : SDF).rows.map
                (fun r => (r.1, r.2.headD PyVal.none)))
          ∧ ((⟨["2023-12-31"], [("Revenue", [PyVal.num 1000000])]⟩ : SDF).rows.map
              (fun r => (r.1, r.2.headD PyVal.none))).length
            = (⟨["2023-12-31"], [("Revenue", [PyVal.num 1000000])]⟩ : SDF).rows.length) :=
  ⟨by decide, latest_col_first_column _ (by decide) (by decide)⟩

/-- C4: for an absent (`None`) statement table or one with zero rows, the
pipeline's snapshot has no rows and its period label falls back to
`"N/A"`; the label is always a present string. -/
theorem latest_col_missing_table (odf : Option SDF)
    (h : odf = Option.none ∨ ∃ df, odf = Option.some df ∧ df.rows = []) :
    latest_col odf = (Option.none, Option.none)
      ∧ ((latest_col odf).1.getD []) = []
      ∧ pretty_period (latest_col odf).2 = "N/A" := by
  rcases h with h | ⟨df, hdf, hrows⟩
  · subst h
    exact ⟨rfl, rfl, rfl⟩
  · subst hdf
    have h : sdfEmpty df = true := by simp [sdfEmpty, hrows]
    simp [latest_col, h, pretty_period]

/-- Concrete instantiation of `latest_col_missing_table` for a zero-row
table. -/
theorem latest_col_missing_table_witness :
    latest_col (Option.some ⟨["2023-12-31"], []⟩) = (Option.none, Option.none)
      ∧ ((latest_col (Option.some (⟨["2023-12-31"], []⟩ : SDF))).1.getD []) = []
      ∧ pretty_period (latest_col (Option.some (⟨["2023-12-31"], []⟩ : SDF))).2 = "N/A" :=
  latest_col_missing_table _ (Or.inr ⟨_, rfl, rfl⟩)

/-- C5: `pretty_period` on a present column identifier renders it
`YYYY-MM-DD` when the identifier's string form parses as a date, and
returns the raw string unchanged when parsing fails; being a total
function, it never raises. -/
theorem pretty_period_parse (s : String) :
    (∀ d, parseDate s = Option.some d → pretty_period (Option.some s) = formatISO d)
      ∧ (parseDate s = Option.none → pretty_period (Option.some s) = s) := by
  constructor
  · intro d h
    simp [pretty_period, h]
  · intro h
    simp [pretty_period, h]

/-- Concrete instantiation of `pretty_period_parse` on a date-valued and a
non-date identifier. -/
theorem pretty_period_parse_witness :
    pretty_period (Option.some "2023-12-31") = formatISO (2023, 12, 31)
      ∧ pretty_period (Option.some "hello") = "hello" :=
  ⟨(pretty_period_parse "2023-12-31").1 (2023, 12, 31) (by decide),
   (pretty_period_parse "hello").2 (by decide)⟩

/-- C6: the rendered-table value formatter maps `1234567` to
`"1,234,567"`, missing values to `""`, and passes a non-numeric string
such as a currency code through unchanged. -/
theorem fmt_formatting_examples :
    fmt (PyVal.num 1234567) = PyVal.str "1,234,567"
      ∧ fmt PyVal.none = PyVal.str ""
      ∧ fmt (PyVal.str "USD") = PyVal.str "USD" := by
  decide

/-- C8: when the provider's price-history call succeeds, an empty row set
yields an empty `price_series` with no error, and a non-empty row set is
reduced to its dates and closing prices only, all other OHLCV columns
discarded. -/
theorem load_data_close_column (p : Provider) (hist : List (Nat × PriceRow))
    (inc bal cf : Option SDF)
    (hh : p.history = .ok hist) (hi : p.income_stmt = .ok inc)
    (hb : p.balance_sheet = .ok bal) (hc : p.cashflow = .ok cf) :
    ∃ r, load_data p = .ok r
      ∧ r.hist = hist.map (fun x => (x.1, x.2.Close))
      ∧ (hist = [] → r.hist = []) := by
  unfold load_data
  rw [hh, hi, hb, hc]
  refine ⟨_, rfl, ?_, ?_⟩
  · by_cases he : hist = []
    · subst he
      rfl
    · have h2 : hist.isEmpty = false := by simp [List.isEmpty_iff, he]
      simp [h2]
  · intro he
    subst he
    rfl

/-- Concrete instantiation of `load_data_close_column` on a two-row
history. -/
theorem load_data_close_column_witness :
    ∃ r,
      load_data
          ⟨.ok (Option.some "ABC Corp", Option.none),
           .ok [(1, ⟨10, 10, 10, 10, 0⟩), (2, ⟨11, 11, 11, 11, 0⟩)],
           .ok Option.none, .ok Option.none, .ok Option.none⟩ = .ok r
        ∧ r.hist
            = ([(1, ⟨10, 10, 10, 10, 0⟩), (2, ⟨11, 11, 11, 11, 0⟩)]
                : List (Nat × PriceRow)).map (fun x => (x.1, x.2.Close))
        ∧ (([(1, ⟨10, 10, 10, 10, 0⟩), (2, ⟨11, 11, 11, 11, 0⟩)]
              : List (Nat × PriceRow)) = [] → r.hist = []) :=
  load_data_close_column _ _ _ _ _ rfl rfl rfl rfl

/-- C10: every value coercible to `float` — numbers, numeric strings,
booleans — is rendered as a comma-separated zero-decimal string, never
passed through; only values on which the coercion raises are returned
as-is. -/
theorem fmt_float_coercion (v : PyVal) (q : ℚ) :
    (pdIsna v = false → pyFloat? v = Option.some q → fmt v = PyVal.str (commaFmt q))
      ∧ (pdIsna v = false → pyFloat? v = Option.none → fmt v = v)
      ∧ fmt (PyVal.str "1234") = PyVal.str "1,234"
      ∧ fmt (PyVal.bool true) = PyVal.str "1"
      ∧ fmt (PyVal.bool false) = PyVal.str "0" := by
  refine ⟨?_, ?_, by decide, by decide, by decide⟩
  · intro h1 h2
    simp [fmt, h1, h2]
  · intro h1 h2
    simp [fmt, h1, h2]

/-- Concrete instantiation of `fmt_float_coercion` on the numeric string
`"1234"`. -/
theorem fmt_float_coercion_witness :
    pdIsna (PyVal.str "1234") = false
      ∧ pyFloat? (PyVal.str "1234") = Option.some (mkRat 1234 1)
      ∧ fmt (PyVal.str "1234") = PyVal.str (commaFmt (mkRat 1234 1)) :=
  ⟨by decide, by decide, (fmt_float_coercion (PyVal.str "1234") (mkRat 1234 1)).1
    (by decide) (by decide)⟩

/-- C1 counterexample: a provider whose price-history call raises makes
`load_data` raise to its caller — the claim that every sub-call failure
degrades into an empty field does not hold as stated. -/
theorem load_data_error_propagation_cex :
    load_data ⟨.ok (Option.none, Option.none), .error (), .ok Option.none,
      .ok Option.none, .ok Option.none⟩ = .error () := rfl

/-- C1 amended: only the metadata lookup is guarded, so `load_data`
returns normally whenever the price-history call and the three statement
calls succeed (a metadata failure merely leaves the name absent); and with
no provider data at all — metadata raising, empty history, all statements
absent — it returns the all-empty result with `"N/A"` period labels. -/
theorem load_data_degrades (p : Provider) (hist : List (Nat × PriceRow))
    (inc bal cf : Option SDF)
    (hh : p.history = .ok hist) (hi : p.income_stmt = .ok inc)
    (hb : p.balance_sheet = .ok bal) (hc : p.cashflow = .ok cf) :
    (load_data p).isOk = true
      ∧ (p.get_info = .error () → hist = [] → inc = Option.none → bal = Option.none →
          cf = Option.none →
          load_data p
            = .ok ⟨Option.none, [], Option.none, "N/A", Option.none, "N/A",
                Option.none, "N/A"⟩) := by
  unfold load_data
  rw [hh, hi, hb, hc]
  constructor
  · rfl
  · intro hg he hinc hbal hcf
    subst he hinc hbal hcf
    rw [hg]
    rfl

/-- Concrete instantiation of `load_data_degrades` on a provider with no
data at all. -/
theorem load_data_degrades_witness :
    load_data ⟨.error (), .ok [], .ok Option.none, .ok Option.none, .ok Option.none⟩
      = .ok ⟨Option.none, [], Option.none, "N/A", Option.none, "N/A", Option.none, "N/A"⟩ :=
  (load_data_degrades _ _ _ _ _ rfl rfl rfl rfl).2 rfl rfl rfl rfl rfl

/-- C2: a cache miss invokes the pipeline exactly once and returns its
result; a second `get_or_fetch` for the same ticker within the TTL window
returns the stored result with zero pipeline invocations and leaves the
state unchanged, while a call at or past expiry re-invokes the pipeline
exactly once and stores its result under the current timestamp. -/
theorem get_or_fetch_ttl (pipeline : String → FetchResult) (s : CacheState)
    (tkr : String) (t0 t1 : Nat) (hs : s.lookup tkr = Option.none) :
    (get_or_fetch pipeline t0 s tkr).2.2 = 1
      ∧ (get_or_fetch pipeline t0 s tkr).1 = pipeline tkr
      ∧ (t1 - t0 < TTL →
          get_or_fetch pipeline t1 (get_or_fetch pipeline t0 s tkr).2.1 tkr
            = ((get_or_fetch pipeline t0 s tkr).1,
               (get_or_fetch pipeline t0 s tkr).2.1, 0))
      ∧ (TTL ≤ t1 - t0 →
          (get_or_fetch pipeline t1 (get_or_fetch pipeline t0 s tkr).2.1 tkr).2.2 = 1
            ∧ (get_or_fetch pipeline t1 (get_or_fetch pipeline t0 s tkr).2.1 tkr).1
                = pipeline tkr
            ∧ ((get_or_fetch pipeline t1 (get_or_fetch pipeline t0 s tkr).2.1 tkr).2.1).lookup
                tkr = Option.some ⟨pipeline tkr, t1⟩) := by
  have h1 : get_or_fetch pipeline t0 s tkr
      = (pipeline tkr, (tkr, ⟨pipeline tkr, t0⟩) :: s, 1) := by
    simp [get_or_fetch, hs]
  have hl : (((tkr, (⟨pipeline tkr, t0⟩ : CacheEntry)) :: s).lookup tkr)
      = Option.some ⟨pipeline tkr, t0⟩ := by
    simp [List.lookup]
  refine ⟨by rw [h1], by rw [h1], ?_, ?_⟩
  · intro hfresh
    rw [h1]
    simp [get_or_fetch, hl, hfresh]
  · intro hstale
    have hnot : ¬ (t1 - t0 < TTL) := Nat.not_lt.2 hstale
    rw [h1]
    simp [get_or_fetch, hl, hnot, List.lookup]

/-- Concrete instantiation of `get_or_fetch_ttl`: a second lookup five
seconds after a miss is served from the cache without re-invoking the
pipeline. -/
theorem get_or_fetch_ttl_witness :
    get_or_fetch
        (fun _ => ⟨Option.none, [], Option.none, "N/A", Option.none, "N/A", Option.none, "N/A"⟩)
        5
        (get_or_fetch
          (fun _ => ⟨Option.none, [], Option.none, "N/A", Option.none, "N/A", Option.none, "N/A"⟩)
          0 [] "LSEG.L").2.1 "LSEG.L"
      = ((get_or_fetch
            (fun _ => ⟨Option.none, [], Option.none, "N/A", Option.none, "N/A", Option.none,
              "N/A"⟩) 0 [] "LSEG.L").1,
         (get_or_fetch
            (fun _ => ⟨Option.none, [], Option.none, "N/A", Option.none, "N/A", Option.none,
              "N/A"⟩) 0 [] "LSEG.L").2.1, 0) :=
  (get_or_fetch_ttl _ [] "LSEG.L" 0 5 rfl).2.2.1 (by decide)

/-- C7 counterexample: a non-numeric, non-missing value in the `"Value"`
column of a rendered table is returned unchanged by the formatter, not as
an empty string, refuting the claim that every non-numeric value renders
as `""`. -/
theorem rendered_nonnumeric_not_empty_cex :
    format_commas (Option.some [("Item", [PyVal.str "Currency"]), ("Value", [PyVal.str "USD"])])
        = Option.some [("Item", [PyVal.str "Currency"]), ("Value", [PyVal.str "USD"])]
      ∧ PyVal.str "USD" ≠ PyVal.str "" := by
  decide

/-- C7 amended: in rendered tables every `"Value"` entry goes through the
formatter, under which numeric (float-coercible) values get thousands
separators and zero decimals, missing values render as `""`, and
non-numeric values pass through unchanged. -/
theorem format_commas_value_column (df : DF) (h : dfEmpty df = false) :
    format_commas (Option.some df)
        = Option.some (df.map (fun c => if c.1 = "Value" then (c.1, c.2.map fmt) else c))
      ∧ (∀ v, pdIsna v = true → fmt v = PyVal.str "")
      ∧ (∀ v q, pdIsna v = false → pyFloat? v = Option.some q → fmt v = PyVal.str (commaFmt q))
      ∧ (∀ v, pdIsna v = false → pyFloat? v = Option.none → fmt v = v) := by
  refine ⟨by simp [format_commas, h], ?_, ?_, ?_⟩
  · intro v hv
    simp [fmt, hv]
  · intro v q h1 h2
    simp [fmt, h1, h2]
  · intro v h1 h2
    simp [fmt, h1, h2]

/-- Concrete instantiation of `format_commas_value_column` on a one-row
statement table. -/
theorem format_commas_value_column_witness :
    dfEmpty [("Item", [PyVal.str "Revenue"]), ("Value", [PyVal.num 1000000])] = false
      ∧ format_commas
            (Option.some [("Item", [PyVal.str "Revenue"]), ("Value", [PyVal.num 1000000])])
          = Option.some
              (([("Item", [PyVal.str "Revenue"]), ("Value", [PyVal.num 1000000])] : DF).map
                (fun c => if c.1 = "Value" then (c.1, c.2.map fmt) else c)) :=
  ⟨by decide, (format_commas_value_column _ (by decide)).1⟩

/-- Helper: `getD` on an appended list reads from the left part below its
length. -/
theorem list_getD_append_left {α : Type} (l l' : List α) (d : α) :
    ∀ j, j < l.length → (l ++ l').getD j d = l.getD j d := by
  induction l with
  | nil => intro j hj; exact absurd hj (by simp)
  | cons x xs ih =>
    intro j hj
    cases j with
    | zero => rfl
    | succ n => exact ih n (Nat.lt_of_succ_lt_succ hj)

/-- Helper: `getD` at the old length of a list extended by one element
reads that element. -/
theorem list_getD_concat_self {α : Type} (l : List α) (a : α) (d : α) :
    (l ++ [a]).getD l.length d = a := by
  induction l with
  | nil => rfl
  | cons x xs ih => exact ih

/-- Helper: rewriting only `"Value"` columns preserves every column
name. -/
theorem map_fst_value_rewrite (df : DF) :
    (df.map (fun c => if c.1 = "Value" then (c.1, c.2.map fmt) else c)).map Prod.fst
      = df.map Prod.fst := by
  induction df with
  | nil => rfl
  | cons c cs ih =>
    by_cases h : c.1 = "Value" <;> simp [h, ih]

/-- Helper: rewriting only `"Value"` columns leaves any entry whose name
is not `"Value"` unchanged. -/
theorem getD_value_rewrite (df : DF) :
    ∀ i, ((df.getD i ("", [])).1 ≠ "Value") →
      (df.map (fun c => if c.1 = "Value" then (c.1, c.2.map fmt) else c)).getD i ("", [])
        = df.getD i ("", []) := by
  induction df with
  | nil => intro i _; rfl
  | cons c cs ih =>
    intro i hi
    cases i with
    | zero => simpa [List.getD] using fun h => absurd h (by simpa [List.getD] using hi)
    | succ n => exact ih n (by simpa [List.getD] using hi)

/-- C9: the heap model of `format_commas` never mutates its argument —
every store cell present before the call, the argument's included, is
unchanged after it — and the returned copy keeps all column names and
every column other than `"Value"` (in particular `"Item"`) identical to
the input. -/
theorem format_commas_no_mutation (st : List DF) (r : Nat) (h : r < st.length) :
    (∀ j, j < st.length → (format_commas_prog st r).1.getD j [] = st.getD j [])
      ∧ ((format_commas_prog st r).1.getD (format_commas_prog st r).2 []).map Prod.fst
          = (st.getD r []).map Prod.fst
      ∧ ∀ i, ((st.getD r []).getD i ("", [])).1 ≠ "Value" →
          ((format_commas_prog st r).1.getD (format_commas_prog st r).2 []).getD i ("", [])
            = (st.getD r []).getD i ("", []) := by
  by_cases hd : dfEmpty (st.getD r []) = true
  · simp only [format_commas_prog, hd, if_true]
    simp
  · have hd' : dfEmpty (st.getD r []) = false := by
      cases hdd : dfEmpty (st.getD r []) with
      | true => exact absurd hdd hd
      | false => rfl
    simp only [format_commas_prog, hd', Bool.false_eq_true, if_false]
    refine ⟨?_, ?_, ?_⟩
    · intro j hj
      exact list_getD_append_left st _ [] j hj
    · rw [list_getD_concat_self]
      exact map_fst_value_rewrite _
    · intro i hi
      rw [list_getD_concat_self]
      exact getD_value_rewrite _ i hi

/-- Concrete instantiation of `format_commas_no_mutation`: the argument
cell of the store is unchanged by the call. -/
theorem format_commas_no_mutation_witness :
    (format_commas_prog [[("Item", [PyVal.str "Revenue"]), ("Value", [PyVal.num 1000000])]]
        0).1.getD 0 []
      = ([[("Item", [PyVal.str "Revenue"]), ("Value", [PyVal.num 1000000])]] : List DF).getD
          0 [] :=
  (format_commas_no_mutation _ 0 (by decide)).1 0 (by decide)
